import Mathlib

/-!
# Claim Eligibility Tracker — verification of `src/index.js`

Shallow embedding of the MultiNetwork-Auto-Tx faucet bot's claim-eligibility
tracker and claim flows.  Timestamps are epoch milliseconds, modelled as `Int`
(JavaScript numbers hold these integer values exactly, since they are far
below 2^53).  The persisted ledger `claims.json` is modelled both at a typed
level (`ClaimData`, for ledgers of the documented shape) and at an untyped
JavaScript-value level (`JsValue`, for the behaviour of `loadClaimHistory`
and `canClaim` on arbitrary parseable files).

The source file defines `claimFaucet` twice; the second definition (lines
235-272) shadows the first (lines 101-147).  Both are embedded here:
`claimFaucetFirst` is the shadowed one, `claimFaucet` the executing one.
-/

namespace AutoTx

/-- `COOLDOWN_HOURS` from src/index.js line 10. -/
def COOLDOWN_HOURS : Int := 24

/-- `MAX_CLAIMS_PER_DAY` from src/index.js line 11. -/
def MAX_CLAIMS_PER_DAY : Int := 10

/-- `COOLDOWN_HOURS * 60 * 60 * 1000`: the 24-hour window in milliseconds. -/
def cooldownMs : Int := COOLDOWN_HOURS * 60 * 60 * 1000

/-- `1000 * 60 * 60`: one hour in milliseconds. -/
def msPerHour : Int := 1000 * 60 * 60

/-- Exact integer ceiling division `⌈a / b⌉` for positive `b`.  For the
arguments arising in `canClaim` (millisecond differences below 2^31 divided
by 3600000) this agrees with JavaScript's
`Math.ceil` of the double-precision quotient, because the rational value is
never closer than `1/3600000` to an integer without being one, far outside
double rounding error at these magnitudes. -/
def ceilDiv (a b : Int) : Int := (a + b - 1) / b

/-- The typed shape of the persisted ledger `claims.json`:
`{ claims: { address: epoch-ms }, dailyCount, lastReset }`.  The `claims`
object is an insertion-ordered association list, as JavaScript objects are. -/
structure ClaimData where
  claims : List (String × Int)
  dailyCount : Int
  lastReset : Int
  deriving DecidableEq, Repr

/-- JavaScript object property read `claims[address]` on the typed ledger:
the first binding of the key, if any. -/
def lookupKey : List (String × Int) → String → Option Int
  | [], _ => none
  | (k, v) :: rest, a => if k = a then some v else lookupKey rest a

/-- JavaScript object property write `claims[address] = v` on the typed
ledger: replace the existing binding in place, or append a new one. -/
def setKey : List (String × Int) → String → Int → List (String × Int)
  | [], a, v => [(a, v)]
  | (k, w) :: rest, a, v =>
      if k = a then (k, v) :: rest else (k, w) :: setKey rest a v

/-- The lazy daily reset at the top of `canClaim` (src/index.js lines 69-73):
when `now - lastReset ≥ 24h`, zero the counter, restart the window at `now`
and persist.  Returns the ledger as `canClaim` continues with it and whether
`saveClaimHistory` was called. -/
def lazyReset (c : ClaimData) (now : Int) : ClaimData × Bool :=
  if cooldownMs ≤ now - c.lastReset then
    ({ c with dailyCount := 0, lastReset := now }, true)
  else (c, false)

/-- The decision object `canClaim` returns, with the data its error message
renders: `DailyLimitReached` carries `nextReset` (shown via
`toLocaleString`), `AddressCooldown` carries `hoursRemaining`. -/
inductive Decision where
  | dailyLimitReached (nextReset : Int)
  | addressCooldown (hoursRemaining : Int)
  | eligible
  deriving DecidableEq, Repr

/-- The decision part of `canClaim` (src/index.js lines 76-97), applied to
the ledger after the lazy reset.  Note the source guards the cooldown branch
with the truthiness test `if (lastClaim)`: a stored timestamp of `0` is
falsy and skips the cooldown check, exactly as a missing entry does. -/
def decideClaim (c : ClaimData) (a : String) (now : Int) : Decision :=
  if MAX_CLAIMS_PER_DAY ≤ c.dailyCount then
    .dailyLimitReached (c.lastReset + cooldownMs)
  else
    match lookupKey c.claims a with
    | some lastClaim =>
        if lastClaim ≠ 0 then
          if now - lastClaim < cooldownMs then
            .addressCooldown (ceilDiv (cooldownMs - (now - lastClaim)) msPerHour)
          else .eligible
        else .eligible
    | none => .eligible

/-- `canClaim(address)` (src/index.js lines 64-98), with the ledger the file
holds passed explicitly (`loadClaimHistory` supplies it in the source) and
`Date.now()` passed as `now`.  Returns the decision, the ledger state as
left by the call, and whether the call persisted it (the lazy reset is the
only write `canClaim` performs). -/
def canClaim (c : ClaimData) (a : String) (now : Int) :
    Decision × ClaimData × Bool :=
  (decideClaim (lazyReset c now).1 a now, (lazyReset c now).1, (lazyReset c now).2)

/-- The claim-recording step of the first (shadowed) `claimFaucet`
definition, src/index.js lines 125-128: reload the ledger, set
`claims[address] = Date.now()`, increment `dailyCount`, persist. -/
def recordClaim (c : ClaimData) (a : String) (now : Int) : ClaimData :=
  { c with claims := setKey c.claims a now, dailyCount := c.dailyCount + 1 }

/-- The outcome of the `axios.post` call to the faucet endpoint, as the two
`claimFaucet` definitions distinguish outcomes: a response whose body has
`success: true` (with `data.hash` and `data.amount`), a response with
`success` false, a thrown error whose `response.status` is 429, or any
other thrown error (whose `message` is reported verbatim). -/
inductive HttpOutcome where
  | success (hash amount : String)
  | appFailure
  | rateLimited429
  | transportError (msg : String)
  deriving DecidableEq, Repr

/-- The error strings the claim flows return, kept structured: the literal
messages of src/index.js, and `notEligible d` for the first `claimFaucet`
definition's pass-through of `claimCheck.error` (a string rendered from the
decision's data). -/
inductive ErrMsg where
  | notEligible (d : Decision)
  | faucetClaimFailed
  | maxClaimsPerIp
  | rateLimitReached
  | transport (msg : String)
  deriving DecidableEq, Repr

/-- The result object a `claimFaucet` call resolves with. -/
structure ClaimResult where
  success : Bool
  hash : Option String
  amount : Option String
  error : Option ErrMsg
  remainingClaims : Option Int
  deriving DecidableEq, Repr

/-- The FIRST, shadowed `claimFaucet` definition (src/index.js lines
101-147): checks `canClaim`, and on an HTTP success records the claim
(`recordClaim`) and persists.  Returns the result together with the
persisted ledger state after the call. -/
def claimFaucetFirst (c : ClaimData) (a : String) (now : Int)
    (resp : HttpOutcome) : ClaimResult × ClaimData :=
  let chk := canClaim c a now
  match chk.1 with
  | .eligible =>
      match resp with
      | .success h amt =>
          let c2 := recordClaim chk.2.1 a now
          (⟨true, some h, some amt, none,
            some (MAX_CLAIMS_PER_DAY - c2.dailyCount)⟩, c2)
      | .appFailure => (⟨false, none, none, some .faucetClaimFailed, none⟩, chk.2.1)
      | .rateLimited429 => (⟨false, none, none, some .maxClaimsPerIp, none⟩, chk.2.1)
      | .transportError m => (⟨false, none, none, some (.transport m), none⟩, chk.2.1)
  | d => (⟨false, none, none, some (.notEligible d), none⟩, chk.2.1)

/-- The SECOND, executing `claimFaucet` definition (src/index.js lines
235-272).  It never reads or writes the claim ledger: it fires the HTTP
request (after a 5-10 s random delay) and maps the outcome to a result.  A
429 yields the literal message "Rate limit reached. Please wait 24 hours
before trying again.". -/
def claimFaucet (resp : HttpOutcome) : ClaimResult :=
  match resp with
  | .success h amt => ⟨true, some h, some amt, none, none⟩
  | .appFailure => ⟨false, none, none, some .faucetClaimFailed, none⟩
  | .rateLimited429 => ⟨false, none, none, some .rateLimitReached, none⟩
  | .transportError m => ⟨false, none, none, some (.transport m), none⟩

/-- `handleSingleFaucetClaim` (src/index.js lines 149-173), the
single-wallet claim flow: validate the entered address, then call the
executing `claimFaucet` exactly once — the source has no retry loop and no
backoff wait.  Modelled over the queue of faucet responses the network
would serve: the flow consumes the first response only.  Returns the list
of claim results produced (the attempts made), the unconsumed responses,
and the ledger file state after the flow (unchanged: the executing
`claimFaucet` never touches it). -/
def handleSingleFaucetClaim (addrValid : Bool) (fs : ClaimData)
    (responses : List HttpOutcome) :
    List ClaimResult × List HttpOutcome × ClaimData :=
  if addrValid then
    match responses with
    | [] => ([], [], fs)
    | r :: rest => ([claimFaucet r], rest, fs)
  else ([], responses, fs)

/-- `handleFaucetClaims` (src/index.js lines 274-323), the bulk
generate-and-claim flow: for each generated wallet, call the executing
`claimFaucet` once (no retry; a fixed 5-second pacing delay between
wallets).  The ledger file is never touched; each wallet consumes one
response from the queue. -/
def handleFaucetClaims (fs : ClaimData) (wallets : List String)
    (responses : List HttpOutcome) : List ClaimResult × ClaimData :=
  match wallets, responses with
  | [], _ => ([], fs)
  | _ :: _, [] => ([], fs)
  | _ :: ws, r :: rs =>
      let rest := handleFaucetClaims fs ws rs
      (claimFaucet r :: rest.1, rest.2)

/-- What `checkClaimStatus` (src/index.js lines 175-206) prints and
computes: the daily count as loaded (printed before any lazy reset), the
next-reset time (printed only when the loaded count has reached the limit),
the remaining-claims line (printed otherwise), and the `canClaim` decision
for the queried address (absent when the address is invalid). -/
structure StatusReport where
  dailyClaimsUsed : Int
  nextReset : Option Int
  remainingToday : Option Int
  addressDecision : Option Decision
  deriving DecidableEq, Repr

/-- `checkClaimStatus` (src/index.js lines 175-206): load the ledger and
report `dailyCount`/`nextReset` directly from it, with no lazy reset; then
(for a valid address) call `canClaim`, which re-loads the same file and
does apply the lazy reset.  Returns the report and the ledger file state
after the call (updated only by `canClaim`'s reset). -/
def checkClaimStatus (fs : ClaimData) (addrValid : Bool) (a : String)
    (now : Int) : StatusReport × ClaimData :=
  let used := fs.dailyCount
  let nr := if MAX_CLAIMS_PER_DAY ≤ fs.dailyCount
            then some (fs.lastReset + cooldownMs) else none
  let rem := if MAX_CLAIMS_PER_DAY ≤ fs.dailyCount
             then none else some (MAX_CLAIMS_PER_DAY - fs.dailyCount)
  if addrValid then
    let r := canClaim fs a now
    (⟨used, nr, rem, some r.1⟩, r.2.1)
  else (⟨used, nr, rem, none⟩, fs)

/-- An untyped JavaScript value, as `JSON.parse` can produce one (plus
`undef` for missing-property reads).  Numbers are restricted to the integer
values the ledger holds (exactly representable as doubles). -/
inductive JsValue where
  | undefined
  | null
  | bool (b : Bool)
  | num (n : Int)
  | str (s : String)
  | obj (fields : List (String × JsValue))

/-- First binding of a field in a JavaScript object's property list. -/
def lookupField : List (String × JsValue) → String → Option JsValue
  | [], _ => none
  | (k, v) :: rest, f => if k = f then some v else lookupField rest f

/-- Property write on a JavaScript object's property list: replace in
place, or append. -/
def setField : List (String × JsValue) → String → JsValue → List (String × JsValue)
  | [], f, v => [(f, v)]
  | (k, w) :: rest, f, v =>
      if k = f then (k, v) :: rest else (k, w) :: setField rest f v

/-- JavaScript property read `x.f` / `x[f]`: throws a `TypeError` on
`undefined` and `null`, yields the field (or `undefined`) on an object, and
`undefined` on any other primitive. -/
def jsGetProp : JsValue → String → Except String JsValue
  | .undefined, _ => .error "TypeError: cannot read properties of undefined"
  | .null, _ => .error "TypeError: cannot read properties of null"
  | .obj fields, f =>
      .ok (match lookupField fields f with | some v => v | none => .undefined)
  | _, _ => .ok .undefined

/-- JavaScript property write `x.f = v`: updates an object; on a non-object
primitive the write is silently ignored (non-strict mode).  `canClaim` only
ever assigns to values on which it has already read a numeric property, so
the primitive case is not reached with an `undefined`/`null` receiver. -/
def jsSetProp : JsValue → String → JsValue → JsValue
  | .obj fields, f, v => .obj (setField fields f v)
  | j, _, _ => j

/-- JavaScript `ToNumber`, with `none` standing for NaN.  The string case
covers the empty string (0) and unsigned decimal integers; other string
forms (signs, fractions, whitespace) map to `none` and are not exercised by
any theorem below. -/
def jsToNumber : JsValue → Option Int
  | .undefined => none
  | .null => some 0
  | .bool b => some (if b then 1 else 0)
  | .num n => some n
  | .str s =>
      if s = "" then some 0
      else if s.all Char.isDigit then some (s.toNat!) else none
  | .obj _ => none

/-- JavaScript truthiness, as `if (lastClaim)` tests it. -/
def jsTruthy : JsValue → Bool
  | .undefined => false
  | .null => false
  | .bool b => b
  | .num n => n != 0
  | .str s => s ≠ ""
  | .obj _ => true

/-- The state of the `claims.json` file as `loadClaimHistory` can find it:
absent, present but failing to read or parse, or holding a parsed JSON
document.  Serialisation is modelled at the value level: `JSON.stringify` /
`JSON.parse` are external library plumbing, and for the ledger's values
(objects, short strings, integers below 2^53) they round-trip exactly, so
the file is modelled as storing the parsed document itself. -/
inductive FileState where
  | absent
  | unreadable
  | stored (doc : JsValue)

/-- The zeroed ledger `loadClaimHistory` falls back to:
`{ claims: {}, dailyCount: 0, lastReset: Date.now() }`. -/
def freshLedgerJs (now : Int) : JsValue :=
  .obj [("claims", .obj []), ("dailyCount", .num 0), ("lastReset", .num now)]

/-- `loadClaimHistory()` (src/index.js lines 40-54): return the parsed file
if present; a missing file, and (via the catch) a read or parse failure,
yield the zeroed ledger with `lastReset = Date.now()`.  Total — it never
raises to its caller.  Note it performs no shape validation: a stored
document is returned as-is, whatever it is. -/
def loadClaimHistory (fs : FileState) (now : Int) : JsValue :=
  match fs with
  | .absent => freshLedgerJs now
  | .unreadable => freshLedgerJs now
  | .stored doc => doc

/-- `saveClaimHistory(claimData)` (src/index.js lines 56-62): overwrite the
file with the serialised document (write failures are logged and leave the
file unchanged; the model takes the successful write). -/
def saveClaimHistory (doc : JsValue) : FileState := .stored doc

/-- The JSON document `saveClaimHistory` writes for a typed ledger. -/
def ledgerToJs (c : ClaimData) : JsValue :=
  .obj [("claims", .obj (c.claims.map fun kv => (kv.1, .num kv.2))),
        ("dailyCount", .num c.dailyCount),
        ("lastReset", .num c.lastReset)]

/-- Reads a ledger-shaped document back into the typed model; the
comparison function for the round-trip statement ("same address-timestamp
pairs, same counter, same reset time"). -/
def decodeClaims : List (String × JsValue) → Option (List (String × Int))
  | [] => some []
  | (k, .num v) :: rest => (decodeClaims rest).map fun l => (k, v) :: l
  | _ => none

/-- Decoder from a JSON document to the typed ledger shape, `none` when the
document is not ledger-shaped. -/
def jsToClaimData : JsValue → Option ClaimData
  | .obj [("claims", .obj entries), ("dailyCount", .num d), ("lastReset", .num r)] =>
      (decodeClaims entries).map fun cs => ⟨cs, d, r⟩
  | _ => none

/-- The decision `canClaim` reaches, at the untyped level: payloads are
`none` when the rendered value would be NaN / an invalid date. -/
inductive JsDecision where
  | dailyLimitReached (nextReset : Option Int)
  | addressCooldown (hoursRemaining : Option Int)
  | eligible

/-- The condition of the lazy-reset `if`:
`(now - claimData.lastReset) >= COOLDOWN_HOURS * 60 * 60 * 1000`, with
`ToNumber` coercion of the subtraction (a NaN comparison is false). -/
def jsResetDue (lastResetV : JsValue) (now : Int) : Bool :=
  match jsToNumber lastResetV with
  | some r => decide (cooldownMs ≤ now - r)
  | none => false

/-- The condition of the daily-limit `if`:
`claimData.dailyCount >= MAX_CLAIMS_PER_DAY`, again via coercion, false on
NaN. -/
def jsOverLimit (dailyV : JsValue) : Bool :=
  match jsToNumber dailyV with
  | some d => decide (MAX_CLAIMS_PER_DAY ≤ d)
  | none => false

/-- The body of `canClaim` after the lazy-reset block: the daily-limit
check, then the per-address cooldown check (`claimData.claims[address]`
guarded by truthiness), on the document as the reset block left it.
`saved` records whether the reset block called `saveClaimHistory`. -/
def canClaimJsAfterReset (claimData : JsValue) (saved : Bool) (address : String)
    (now : Int) : Except String (JsDecision × JsValue × Bool) :=
  match jsGetProp claimData "dailyCount" with
  | .error e => .error e
  | .ok dailyV =>
      if jsOverLimit dailyV then
        match jsGetProp claimData "lastReset" with
        | .error e => .error e
        | .ok lastResetV2 =>
            .ok (.dailyLimitReached
                   (match lastResetV2 with
                    | .num r => some (r + cooldownMs)
                    | _ => none),
                 claimData, saved)
      else
        match jsGetProp claimData "claims" with
        | .error e => .error e
        | .ok claimsV =>
            match jsGetProp claimsV address with
            | .error e => .error e
            | .ok lastClaim =>
                if jsTruthy lastClaim then
                  match jsToNumber lastClaim with
                  | some v =>
                      if now - v < cooldownMs then
                        .ok (.addressCooldown
                               (some (ceilDiv (cooldownMs - (now - v)) msPerHour)),
                             claimData, saved)
                      else .ok (.eligible, claimData, saved)
                  | none => .ok (.eligible, claimData, saved)
                else .ok (.eligible, claimData, saved)

/-- `canClaim(address)` run on an arbitrary parsed document, with
JavaScript's dynamic semantics: property reads (`TypeError` on
`undefined`/`null`), `ToNumber` coercion in the subtraction and comparisons
(NaN comparisons are false), truthiness of `lastClaim`.  Returns the
decision, the document as left by the call and whether it was persisted —
or the thrown error.  On a parseable but ledger-shaped-in-no-way document
such as `{}`, the read `claimData.claims[address]` is an index into
`undefined` and throws. -/
def canClaimJs (claimData0 : JsValue) (address : String) (now : Int) :
    Except String (JsDecision × JsValue × Bool) :=
  match jsGetProp claimData0 "lastReset" with
  | .error e => .error e
  | .ok lastResetV =>
      canClaimJsAfterReset
        (if jsResetDue lastResetV now then
          jsSetProp (jsSetProp claimData0 "dailyCount" (.num 0)) "lastReset" (.num now)
         else claimData0)
        (jsResetDue lastResetV now) address now

/-- The typed decision viewed at the untyped level (payloads are genuine
numbers on a well-shaped ledger). -/
def decisionToJs : Decision → JsDecision
  | .dailyLimitReached r => .dailyLimitReached (some r)
  | .addressCooldown h => .addressCooldown (some h)
  | .eligible => .eligible

/-! ## Helper lemmas -/

theorem cooldownMs_eval : cooldownMs = 86400000 := by decide

theorem msPerHour_eval : msPerHour = 3600000 := by decide

theorem maxClaimsPerDay_eval : MAX_CLAIMS_PER_DAY = 10 := by decide

theorem ceilDiv_full_window : ceilDiv cooldownMs msPerHour = 24 := by decide

theorem lookupKey_setKey_self (l : List (String × Int)) (a : String) (v : Int) :
    lookupKey (setKey l a v) a = some v := by
  induction l with
  | nil => simp [setKey, lookupKey]
  | cons hd tl ih =>
      by_cases hk : hd.1 = a
      · simp [setKey, lookupKey, hk]
      · simp [setKey, lookupKey, hk, ih]

theorem lazyReset_claims (c : ClaimData) (now : Int) :
    ((lazyReset c now).1).claims = c.claims := by
  unfold lazyReset; split <;> rfl

theorem lazyReset_not_due (c : ClaimData) (now : Int) :
    ¬ cooldownMs ≤ now - ((lazyReset c now).1).lastReset := by
  unfold lazyReset
  split
  · show ¬ cooldownMs ≤ now - now
    rw [cooldownMs_eval]; omega
  · next h => exact h

/-- Re-evaluating immediately after `recordClaim` on a state whose window is
current: the daily-limit gate fires on the incremented counter, otherwise
the freshly written timestamp puts the address on a full 24-hour cooldown
(provided `now` is not the falsy timestamp 0). -/
theorem recordClaim_recheck (c1 : ClaimData) (a : String) (now : Int)
    (hlr : ¬ cooldownMs ≤ now - c1.lastReset) (hnz : now ≠ 0) :
    canClaim (recordClaim c1 a now) a now =
      (if MAX_CLAIMS_PER_DAY ≤ c1.dailyCount + 1 then
         Decision.dailyLimitReached (c1.lastReset + cooldownMs)
       else Decision.addressCooldown 24,
       recordClaim c1 a now, false) := by
  have h2 : lazyReset (recordClaim c1 a now) now = (recordClaim c1 a now, false) := by
    unfold lazyReset recordClaim
    simp [hlr]
  unfold canClaim
  rw [h2]
  unfold decideClaim
  rw [show (recordClaim c1 a now).claims = setKey c1.claims a now from rfl,
      lookupKey_setKey_self]
  simp only [recordClaim, hnz, ne_eq, not_false_eq_true, if_true, sub_self]
  have h0 : (0 : Int) < cooldownMs := by rw [cooldownMs_eval]; omega
  simp [h0, ceilDiv_full_window]

/-! ## C1 — evaluate-Eligible, record, re-evaluate at the same instant -/

/-- C1 (amended): if `canClaim` returns Eligible at time `t ≠ 0`, then
recording the claim on the state `canClaim` left persisted and re-evaluating
at the same `t` yields `DailyLimitReached` when the incremented `dailyCount`
has reached `MAX_CLAIMS_PER_DAY`, and otherwise `AddressCooldown` (24 hours
remaining) — never `Eligible`.  At `t = 0` the recorded timestamp `0` is
falsy and the source's `if (lastClaim)` skips the cooldown check. -/
theorem eligible_then_record_blocks (c : ClaimData) (a : String) (now : Int)
    (hnz : now ≠ 0) (_helig : (canClaim c a now).1 = Decision.eligible) :
    (canClaim (recordClaim (canClaim c a now).2.1 a now) a now).1 =
      if MAX_CLAIMS_PER_DAY ≤ (recordClaim (canClaim c a now).2.1 a now).dailyCount then
        Decision.dailyLimitReached
          ((recordClaim (canClaim c a now).2.1 a now).lastReset + cooldownMs)
      else Decision.addressCooldown 24 := by
  have h1 : (canClaim c a now).2.1 = (lazyReset c now).1 := rfl
  rw [h1, recordClaim_recheck (lazyReset c now).1 a now (lazyReset_not_due c now) hnz]
  simp [recordClaim]

/-- C1 witness: fresh zeroed ledger, address claims at `t = 5`; re-evaluation
reports a cooldown. -/
theorem eligible_then_record_blocks_witness :
    (canClaim (recordClaim (canClaim ⟨[], 0, 0⟩ "0xA" 5).2.1 "0xA" 5) "0xA" 5).1 =
      if MAX_CLAIMS_PER_DAY ≤
          (recordClaim (canClaim ⟨[], 0, 0⟩ "0xA" 5).2.1 "0xA" 5).dailyCount then
        Decision.dailyLimitReached
          ((recordClaim (canClaim ⟨[], 0, 0⟩ "0xA" 5).2.1 "0xA" 5).lastReset + cooldownMs)
      else Decision.addressCooldown 24 :=
  eligible_then_record_blocks ⟨[], 0, 0⟩ "0xA" 5 (by decide) (by decide)

/-- C1 counterexample: at the instant `t = 0` (epoch zero) on a fresh
ledger, the address is Eligible, recording leaves `dailyCount = 1 < 10`,
and re-evaluating at the same instant is still Eligible — not the
AddressCooldown the claim requires. -/
theorem eligible_then_record_counterexample :
    (canClaim ⟨[], 0, 0⟩ "0xA" 0).1 = Decision.eligible ∧
    (recordClaim (canClaim ⟨[], 0, 0⟩ "0xA" 0).2.1 "0xA" 0).dailyCount <
      MAX_CLAIMS_PER_DAY ∧
    (canClaim (recordClaim (canClaim ⟨[], 0, 0⟩ "0xA" 0).2.1 "0xA" 0) "0xA" 0).1 =
      Decision.eligible := by decide

/-! ## C4 — the lazy daily reset fires exactly at 24 h and persists -/

/-- C4: during evaluation, the ledger state `canClaim` leaves behind and the
persisted flag (`saveClaimHistory` called) are exactly: when
`now - lastReset ≥ 24h`, the counter is zeroed, `lastReset` becomes `now`
and the state is saved immediately (no claim need follow); when
`now - lastReset < 24h`, the state is untouched and nothing is written. -/
theorem canClaim_lazy_reset_exact (c : ClaimData) (a : String) (now : Int) :
    (canClaim c a now).2 =
      if cooldownMs ≤ now - c.lastReset then
        ({ c with dailyCount := 0, lastReset := now }, true)
      else (c, false) := rfl

/-! ## C5 — daily-limit check precedes the address cooldown -/

/-- C5: whenever the (post-reset) daily counter has reached
`MAX_CLAIMS_PER_DAY`, `canClaim` answers `DailyLimitReached` with
`nextReset = lastReset + 24h` for every queried address — including one with
no entry in `claims` at all. -/
theorem daily_limit_precedence (c : ClaimData) (a : String) (now : Int)
    (h : MAX_CLAIMS_PER_DAY ≤ ((lazyReset c now).1).dailyCount) :
    (canClaim c a now).1 =
      Decision.dailyLimitReached (((lazyReset c now).1).lastReset + cooldownMs) := by
  unfold canClaim decideClaim
  simp [h]

/-- C5 witness: ten claims used, window current, a brand-new address is
still told the daily limit is reached. -/
theorem daily_limit_precedence_witness :
    (canClaim ⟨[], 10, 0⟩ "0xBrandNew" 5).1 =
      Decision.dailyLimitReached
        (((lazyReset ⟨[], 10, 0⟩ 5).1).lastReset + cooldownMs) :=
  daily_limit_precedence ⟨[], 10, 0⟩ "0xBrandNew" 5 (by decide)

/-! ## C6 — cooldown hours-remaining is a positive ceiling -/

/-- C6 (amended): for an address whose recorded claim has a truthy (nonzero)
timestamp, elapsed time in `[0, 24h)` and the daily limit not reached, the
decision is `AddressCooldown` with `hoursRemaining` the exact ceiling of the
remaining fraction of the window — always at least 1, never rounded down
to 0.  A recorded timestamp of exactly 0 is falsy and skips the branch. -/
theorem cooldown_hours_ceiling (c : ClaimData) (a : String) (now v : Int)
    (hv : lookupKey c.claims a = some v) (hnz : v ≠ 0)
    (h0 : 0 ≤ now - v) (hlt : now - v < cooldownMs)
    (hdc : ((lazyReset c now).1).dailyCount < MAX_CLAIMS_PER_DAY) :
    (canClaim c a now).1 =
      Decision.addressCooldown (ceilDiv (cooldownMs - (now - v)) msPerHour) ∧
    1 ≤ ceilDiv (cooldownMs - (now - v)) msPerHour := by
  constructor
  · unfold canClaim decideClaim
    rw [lazyReset_claims, hv]
    simp [not_le.mpr hdc, hnz, hlt]
  · rw [cooldownMs_eval] at hlt
    unfold ceilDiv
    rw [msPerHour_eval, cooldownMs_eval]
    omega

/-- C6 witness: 23.1 hours (83160000 ms) elapsed reports 1 hour remaining,
not 0. -/
theorem cooldown_hours_ceiling_witness :
    (canClaim ⟨[("0xA", 1000)], 0, 83161000⟩ "0xA" 83161000).1 =
      Decision.addressCooldown
        (ceilDiv (cooldownMs - (83161000 - 1000)) msPerHour) ∧
    1 ≤ ceilDiv (cooldownMs - (83161000 - 1000)) msPerHour :=
  cooldown_hours_ceiling ⟨[("0xA", 1000)], 0, 83161000⟩ "0xA" 83161000 1000
    (by decide) (by decide) (by decide) (by decide) (by decide)

/-- C6 counterexample: an address with a prior claim at timestamp 0 and
10 ms elapsed (well under 24 h, daily limit clear) is reported Eligible —
the truthy guard `if (lastClaim)` skips the cooldown branch — whereas the
claim requires an AddressCooldown of 24 hours. -/
theorem cooldown_hours_counterexample :
    lookupKey ((⟨[("0xA", 0)], 0, 10⟩ : ClaimData).claims) "0xA" = some 0 ∧
    (0 : Int) ≤ 10 - 0 ∧ (10 : Int) - 0 < cooldownMs ∧
    ((lazyReset ⟨[("0xA", 0)], 0, 10⟩ 10).1).dailyCount < MAX_CLAIMS_PER_DAY ∧
    (canClaim ⟨[("0xA", 0)], 0, 10⟩ "0xA" 10).1 = Decision.eligible ∧
    ceilDiv (cooldownMs - (10 - 0)) msPerHour = 24 := by decide

/-! ## C2 — the executing claim flows never touch the ledger (code bug) -/

/-- C2 evaluated at the failing input: in the executing single-wallet flow,
a successful faucet claim at `now = 5` on the zeroed ledger succeeds yet
leaves the persisted ledger byte-for-byte unchanged — no
`claims["0xA"] = now`, no `dailyCount` increment — because the second
`claimFaucet` definition shadows the first, which (as its body here shows)
would have recorded `("0xA", 5)` and counted the claim. -/
theorem successful_claim_leaves_ledger_unchanged :
    (claimFaucet (.success "0xabc" "1000000000000000000")).success = true ∧
    (handleSingleFaucetClaim true ⟨[], 0, 0⟩
        [.success "0xabc" "1000000000000000000"]).2.2 = (⟨[], 0, 0⟩ : ClaimData) ∧
    lookupKey ((handleSingleFaucetClaim true ⟨[], 0, 0⟩
        [.success "0xabc" "1000000000000000000"]).2.2).claims "0xA" = none ∧
    ((handleSingleFaucetClaim true ⟨[], 0, 0⟩
        [.success "0xabc" "1000000000000000000"]).2.2).dailyCount = 0 ∧
    ((claimFaucetFirst ⟨[], 0, 0⟩ "0xA" 5 (.success "0xabc" "1")).2).claims =
      [("0xA", 5)] ∧
    ((claimFaucetFirst ⟨[], 0, 0⟩ "0xA" 5 (.success "0xabc" "1")).2).dailyCount = 1 ∧
    (handleFaucetClaims ⟨[], 0, 0⟩ ["0xB"]
        [.success "0xdef" "1000000000000000000"]).2 = (⟨[], 0, 0⟩ : ClaimData) := by
  decide

/-! ## C3 — no retry in the single-wallet claim flow -/

/-- C3 (amended): the single-wallet flow makes exactly one faucet attempt,
whatever the response; it consumes a single response from the queue, leaves
the ledger untouched, and on a 429 it reports the rate-limit message with
no backoff wait and no further attempt. -/
theorem single_claim_no_retry (fs : ClaimData) (r : HttpOutcome)
    (rest : List HttpOutcome) :
    (handleSingleFaucetClaim true fs (r :: rest)).1.length = 1 ∧
    (handleSingleFaucetClaim true fs (r :: rest)).2.1 = rest ∧
    (handleSingleFaucetClaim true fs (r :: rest)).2.2 = fs ∧
    (handleSingleFaucetClaim true fs (.rateLimited429 :: rest)).1 =
      [⟨false, none, none, some .rateLimitReached, none⟩] := by
  simp [handleSingleFaucetClaim, claimFaucet]

/-- C3 counterexample: with the faucet answering HTTP 429 three consecutive
times, the single-wallet flow makes 1 attempt, not the 3 the claim
requires — two responses are never requested. -/
theorem single_claim_three_429_counterexample :
    ((handleSingleFaucetClaim true ⟨[], 0, 0⟩
        [.rateLimited429, .rateLimited429, .rateLimited429]).1.length = 1) ∧
    ¬ ((handleSingleFaucetClaim true ⟨[], 0, 0⟩
        [.rateLimited429, .rateLimited429, .rateLimited429]).1.length = 3) ∧
    (handleSingleFaucetClaim true ⟨[], 0, 0⟩
        [.rateLimited429, .rateLimited429, .rateLimited429]).2.1.length = 2 := by
  decide

/-! ## C7 — loadClaimHistory falls back to a zeroed ledger, never raises -/

/-- C7: `loadClaimHistory` is total (it never raises to its caller), and on
a missing file, or on a file that fails to read or parse, it returns the
freshly zeroed ledger `{ claims: {}, dailyCount: 0, lastReset: now }`. -/
theorem loadClaimHistory_fallback (now : Int) :
    loadClaimHistory .absent now = freshLedgerJs now ∧
    loadClaimHistory .unreadable now = freshLedgerJs now ∧
    freshLedgerJs now =
      .obj [("claims", .obj []), ("dailyCount", .num 0), ("lastReset", .num now)] :=
  ⟨rfl, rfl, rfl⟩

/-! ## C8 — save-then-load round trip -/

/-- C8: saving any ledger and loading it back yields the identical
document, and decoding that document recovers exactly the same
address-timestamp pairs, `dailyCount` and `lastReset`. -/
theorem save_load_roundtrip (c : ClaimData) (now : Int) :
    loadClaimHistory (saveClaimHistory (ledgerToJs c)) now = ledgerToJs c ∧
    jsToClaimData (ledgerToJs c) = some c := by
  refine ⟨rfl, ?_⟩
  have h : ∀ l : List (String × Int),
      decodeClaims (l.map fun kv => (kv.1, .num kv.2)) = some l := by
    intro l
    induction l with
    | nil => rfl
    | cons hd tl ih => simp [decodeClaims, ih]
  simp [jsToClaimData, ledgerToJs, h c.claims]

/-! ## C9 — no shape validation; canClaim throws on malformed documents -/

/-- C9: a parseable file is returned by `loadClaimHistory` exactly as
parsed — an empty object or a bare string included, with no shape
validation — and running `canClaim` on such a document throws: the read
`claimData.claims[address]` indexes into `undefined`.  The never-raises
guarantee of loading does not extend through evaluation. -/
theorem load_unvalidated_canClaim_throws (now : Int) (a : String) :
    loadClaimHistory (.stored (.obj [])) now = .obj [] ∧
    loadClaimHistory (.stored (.str "oops")) now = .str "oops" ∧
    canClaimJs (.obj []) a now =
      .error "TypeError: cannot read properties of undefined" ∧
    canClaimJs (.str "oops") a now =
      .error "TypeError: cannot read properties of undefined" :=
  ⟨rfl, rfl, rfl, rfl⟩

/-! ## C10 — status check reports the pre-reset counter -/

/-- C10: with the daily quota exhausted and more than 24 h since
`lastReset`, one `checkClaimStatus` invocation prints the stale quota (the
loaded `dailyCount`, with a next-reset time already in the past) while the
per-address check in the same invocation applies the lazy reset and finds a
fresh address Eligible. -/
theorem status_stale_quota_vs_eligible (c : ClaimData) (a : String) (now : Int)
    (hdc : MAX_CLAIMS_PER_DAY ≤ c.dailyCount)
    (hstale : cooldownMs < now - c.lastReset)
    (hfresh : lookupKey c.claims a = none) :
    ((checkClaimStatus c true a now).1).dailyClaimsUsed = c.dailyCount ∧
    ((checkClaimStatus c true a now).1).nextReset = some (c.lastReset + cooldownMs) ∧
    c.lastReset + cooldownMs < now ∧
    ((checkClaimStatus c true a now).1).addressDecision = some Decision.eligible := by
  have hle : cooldownMs ≤ now - c.lastReset := le_of_lt hstale
  refine ⟨rfl, ?_, by omega, ?_⟩
  · simp [checkClaimStatus, hdc]
  · have hreset : lazyReset c now = ({ c with dailyCount := 0, lastReset := now }, true) := by
      unfold lazyReset
      simp [hle]
    unfold checkClaimStatus canClaim decideClaim
    rw [hreset]
    simp [maxClaimsPerDay_eval, hfresh]

/-- C10 witness: ledger at 10/10 with `lastReset = 0`, queried 36 h later
(`now = 129600000`) for a brand-new address: the report shows the stale
10/10 with next reset 86400000 (in the past) while the address check says
Eligible. -/
theorem status_stale_quota_vs_eligible_witness :
    ((checkClaimStatus ⟨[], 10, 0⟩ true "0xNew" 129600000).1).dailyClaimsUsed = 10 ∧
    ((checkClaimStatus ⟨[], 10, 0⟩ true "0xNew" 129600000).1).nextReset =
      some (0 + cooldownMs) ∧
    (0 : Int) + cooldownMs < 129600000 ∧
    ((checkClaimStatus ⟨[], 10, 0⟩ true "0xNew" 129600000).1).addressDecision =
      some Decision.eligible :=
  status_stale_quota_vs_eligible ⟨[], 10, 0⟩ "0xNew" 129600000
    (by decide) (by decide) (by decide)

/-! ## Bridge: the untyped semantics agrees with the typed model on
well-shaped ledgers -/

theorem lookupField_map_num (l : List (String × Int)) (a : String) :
    lookupField (l.map fun kv => (kv.1, JsValue.num kv.2)) a =
      (lookupKey l a).map JsValue.num := by
  induction l with
  | nil => rfl
  | cons hd tl ih =>
      by_cases h : hd.1 = a <;> simp [lookupField, lookupKey, h, ih]

theorem canClaimJsAfterReset_ledger (c : ClaimData) (saved : Bool) (a : String)
    (now : Int) :
    canClaimJsAfterReset (ledgerToJs c) saved a now =
      .ok (decisionToJs (decideClaim c a now), ledgerToJs c, saved) := by
  have hd : jsGetProp (ledgerToJs c) "dailyCount" = .ok (.num c.dailyCount) := rfl
  have hr : jsGetProp (ledgerToJs c) "lastReset" = .ok (.num c.lastReset) := rfl
  have hc : jsGetProp (ledgerToJs c) "claims" =
      .ok (.obj (c.claims.map fun kv => (kv.1, .num kv.2))) := rfl
  have hgc : jsGetProp (.obj (c.claims.map fun kv => (kv.1, .num kv.2))) a =
      .ok (match (lookupKey c.claims a).map JsValue.num with
           | some v => v
           | none => .undefined) := by
    simp [jsGetProp, lookupField_map_num]
  unfold canClaimJsAfterReset
  rw [hd]
  dsimp only
  by_cases hlim : MAX_CLAIMS_PER_DAY ≤ c.dailyCount
  · have hov : jsOverLimit (.num c.dailyCount) = true := by
      simp [jsOverLimit, jsToNumber, hlim]
    simp [hov, hr, decideClaim, hlim, decisionToJs]
  · have hov : jsOverLimit (.num c.dailyCount) = false := by
      simp [jsOverLimit, jsToNumber, hlim]
    rw [hov]
    simp only [Bool.false_eq_true, if_false]
    rw [hc]
    dsimp only
    rw [hgc]
    cases hlk : lookupKey c.claims a with
    | none => simp [jsTruthy, decideClaim, hlim, hlk, decisionToJs]
    | some v =>
        by_cases hv : v = 0
        · simp [jsTruthy, decideClaim, hlim, hlk, hv, decisionToJs]
        · by_cases hw : now - v < cooldownMs <;>
            simp [jsTruthy, jsToNumber, decideClaim, hlim, hlk, hv, hw, decisionToJs]

/-- On a well-shaped ledger document, the untyped `canClaim` semantics never
throws and agrees with the typed model: same decision (with genuine numeric
payloads), same resulting document, same persisted flag. -/
theorem canClaimJs_agrees (c : ClaimData) (a : String) (now : Int) :
    canClaimJs (ledgerToJs c) a now =
      .ok (decisionToJs (canClaim c a now).1, ledgerToJs (canClaim c a now).2.1,
           (canClaim c a now).2.2) := by
  have hr : jsGetProp (ledgerToJs c) "lastReset" = .ok (.num c.lastReset) := rfl
  have hset : jsSetProp (jsSetProp (ledgerToJs c) "dailyCount" (.num 0))
      "lastReset" (.num now) =
      ledgerToJs { c with dailyCount := 0, lastReset := now } := rfl
  unfold canClaimJs
  rw [hr]
  dsimp only
  by_cases h1 : cooldownMs ≤ now - c.lastReset
  · have hdue : jsResetDue (.num c.lastReset) now = true := by
      simp [jsResetDue, jsToNumber, h1]
    simp [hdue, hset, canClaimJsAfterReset_ledger, canClaim, lazyReset, h1]
  · have hdue : jsResetDue (.num c.lastReset) now = false := by
      simp [jsResetDue, jsToNumber, h1]
    simp [hdue, canClaimJsAfterReset_ledger, canClaim, lazyReset, h1]

end AutoTx
